import Mathlib

/-!
Verification of the fill-reconciliation-data core: a shallow embedding of
`app/service/reconciliation_parser.py` and `app/service/order_classifier.py`.

Modelling conventions:
* CSV rows (Python `Dict[str, Any]` coming from a CSV reader) are association
  lists `List (String × Option String)`; `rowGet` mirrors `dict.get` (absent
  key and a stored `None` both yield `none`, as in Python).
* Currency amounts are exact rationals `ℚ`; Python `float(...)` on a string is
  modelled by the decimal parser `parseFloat?` (sign, optional fraction,
  optional exponent), returning `none` where `float` would raise.
* Python dicts built by the code are association lists with first-key-wins
  lookup and in-place overwrite (`insertAssoc`), matching dict semantics.
* A Python `set` of strings is modelled as an insertion-ordered deduplicated
  list; real CPython set iteration order is unspecified (hash-randomized),
  which matters for (and is discussed at) the `determine_auth_status`
  fallback branches.
* Statistics counters (`classification_stats`) are not modelled: they feed
  logging only and are not referenced by any verified property.
* Dates (`order_date`) are modelled as day numbers `Int`; the code's
  `(next_dt - cur_dt).days` becomes integer subtraction.
-/

namespace Recon

/-- A CSV/DB row: string keys to optional string values. -/
abbrev Row := List (String × Option String)

/-- `row.get(k)`: `none` when the key is absent or its value is `None`. -/
def rowGet (row : Row) (k : String) : Option String :=
  match row.find? (fun p => p.1 == k) with
  | some p => p.2
  | none => none

/-- `k in row` on a Python dict: key membership. -/
def rowHasKey (row : Row) (k : String) : Bool :=
  row.any (fun p => p.1 == k)

/-- Association-list lookup, mirroring Python dict access. -/
def lookupAssoc (l : List (String × α)) (k : String) : Option α :=
  match l.find? (fun p => p.1 == k) with
  | some p => some p.2
  | none => none

/-- `d[k] = v` on a Python dict: overwrite in place, else append. -/
def insertAssoc (k : String) (v : α) : List (String × α) → List (String × α)
  | [] => [(k, v)]
  | (k', v') :: rest =>
    if k' == k then (k', v) :: rest else (k', v') :: insertAssoc k v rest

/-- In-place update of the value at a key (no-op when absent). -/
def updateAssoc (k : String) (f : α → α) : List (String × α) → List (String × α)
  | [] => []
  | (k', v') :: rest =>
    if k' == k then (k', f v') :: rest else (k', v') :: updateAssoc k f rest

/-- `group[k].append(v)` on a `defaultdict(list)`: extend in place, else add key. -/
def addToGroup (k : String) (v : α) : List (String × List α) → List (String × List α)
  | [] => [(k, [v])]
  | (k', vs) :: rest =>
    if k' == k then (k', vs ++ [v]) :: rest else (k', vs) :: addToGroup k v rest

/-- `s.add(x)` on a Python set of strings (membership-faithful model). -/
def insertSet (x : String) (l : List String) : List String :=
  if l.contains x then l else l ++ [x]

/-- Python truthiness of an `Optional[str]`: `None` and `""` are falsy. -/
def truthy : Option String → Bool
  | none => false
  | some s => !(s == "")

/-- Python `a or b` on `Optional[str]` values. -/
def pyOrStr (a b : Option String) : Option String :=
  if truthy a then a else b

/-- Python `str.strip()` (drop leading and trailing whitespace). -/
def pyStrip (s : String) : String :=
  String.mk (((s.toList.dropWhile Char.isWhitespace).reverse.dropWhile
    Char.isWhitespace).reverse)

/-- Python `str.upper()`. -/
def pyUpper (s : String) : String :=
  String.mk (s.toList.map Char.toUpper)

/-- Python `s.replace(c, "")` for a one-character pattern. -/
def removeChar (c : Char) (s : String) : String :=
  String.mk (s.toList.filter (fun x => !(x = c)))

/-- Character-list prefix test. -/
def charStartsWith : List Char → List Char → Bool
  | [], _ => true
  | _ :: _, [] => false
  | a :: as, b :: bs => a = b && charStartsWith as bs

/-- Python `s.startswith(pre)`. -/
def pyStartsWith (pre s : String) : Bool :=
  charStartsWith pre.toList s.toList

/-- Substring test: Python `sub in s` on strings. -/
def strContainsSub (s sub : String) : Bool :=
  (List.range (s.toList.length + 1)).any
    (fun i => charStartsWith sub.toList (s.toList.drop i))

/-- Split a character list at every separator matching `p` (Python `str.split`). -/
def splitOnChar (p : Char → Bool) : List Char → List (List Char)
  | [] => [[]]
  | x :: xs =>
    match splitOnChar p xs with
    | [] => [[]]
    | h :: t => if p x then [] :: h :: t else (x :: h) :: t

/-- Accumulate decimal digits into a natural number. -/
def digitsToNat (l : List Char) : Nat :=
  l.foldl (fun n c => n * 10 + (c.toNat - 48)) 0

/-- All characters are decimal digits. -/
def allDigits (l : List Char) : Bool :=
  l.all Char.isDigit

/-- Strip one optional leading sign; return (isNegative, rest). -/
def parseSign : List Char → Bool × List Char
  | '+' :: rest => (false, rest)
  | '-' :: rest => (true, rest)
  | l => (false, l)

/-- Parse an unsigned decimal mantissa `d+`, `d+.d*` or `.d+` as a rational. -/
def parseMantissa (cs : List Char) : Option ℚ :=
  match splitOnChar (fun c => c = '.') cs with
  | [ip] =>
    if ip.isEmpty then none
    else if allDigits ip then some ((digitsToNat ip : ℚ)) else none
  | [ip, fp] =>
    if ip.isEmpty && fp.isEmpty then none
    else if allDigits ip && allDigits fp then
      some ((digitsToNat (ip ++ fp) : ℚ) / (10 ^ fp.length))
    else none
  | _ => none

/-- Parse a signed decimal exponent. -/
def parseExp (cs0 : List Char) : Option Int :=
  let (neg, cs) := parseSign cs0
  if cs.isEmpty then none
  else if allDigits cs then
    some (if neg then -(digitsToNat cs : Int) else (digitsToNat cs : Int))
  else none

/-- Model of Python `float(s)` over exact rationals: `none` where it raises. -/
def parseFloat? (s : String) : Option ℚ :=
  let t := (pyStrip s).toList
  let (neg, cs) := parseSign t
  match splitOnChar (fun c => c = 'e' ∨ c = 'E') cs with
  | [m] => (parseMantissa m).map (fun q => if neg then -q else q)
  | [m, e] =>
    match parseMantissa m, parseExp e with
    | some q, some ex => some ((if neg then -q else q) * (10 : ℚ) ^ ex)
    | _, _ => none
  | _ => none

/-- `_safe_float`: lenient currency parsing, `none` instead of raising. -/
def safe_float (value : Option String) : Option ℚ :=
  match value with
  | none => none
  | some s =>
    if s == "" then none
    else parseFloat? (pyStrip (removeChar ',' (removeChar '$' s)))

/-- Model of Python `int(s)`: optional sign, digits only. -/
def parseInt? (s : String) : Option Int :=
  let (neg, cs) := parseSign (pyStrip s).toList
  if cs.isEmpty then none
  else if allDigits cs then
    some (if neg then -(digitsToNat cs : Int) else (digitsToNat cs : Int))
  else none

/-- `_safe_int`: lenient integer parsing, `none` instead of raising. -/
def safe_int (value : Option String) : Option Int :=
  match value with
  | none => none
  | some s => if s == "" then none else parseInt? (pyStrip s)

/-- `ValidationError` raised by `validate_csv_columns`, with its payload. -/
inductive ValidationError where
  | emptyBatch (batchType : String)
  | missingColumns (batchType : String) (missing : List String) (available : List String)
deriving DecidableEq, Repr

/-- Required columns of the Converge CURRENT batch. -/
def REQUIRED_CURRENT_COLUMNS : List String := ["Invoice Number", "Auth Message"]

/-- Required columns of the Converge SETTLED batch. -/
def REQUIRED_SETTLED_COLUMNS : List String :=
  ["Invoice Number", "Original Transaction Type", "Transaction Status", "Original Amount"]

/-- `validate_csv_columns`: empty batch or missing columns in the first row. -/
def validate_csv_columns (rows : List Row) (required : List String)
    (batch_type : String) : Except ValidationError Unit :=
  match rows with
  | [] => .error (.emptyBatch batch_type)
  | first :: _ =>
    let missing := required.filter (fun col => !(rowHasKey first col))
    if missing.isEmpty then .ok ()
    else .error (.missingColumns batch_type missing (first.map Prod.fst))

/-- Parsed trailing summary row (`_parse_summary_row`). -/
structure Summary where
  sales_count : Option Int
  total_sales : Option ℚ
  returns_count : Option Int
  total_returns : Option ℚ
  net_sales : Option ℚ
  others_count : Option Int
  total_count : Option Int
deriving DecidableEq, Repr

/-- `_parse_summary_row`: `none` unless the "Sales Count" cell is non-blank. -/
def parse_summary_row (row : Row) : Option Summary :=
  let sales_count := pyStrip ((rowGet row "Sales Count").getD "")
  if sales_count == "" then none
  else some
    { sales_count := safe_int (some sales_count)
      total_sales := safe_float (rowGet row "Total Sales")
      returns_count := safe_int (rowGet row "Returns Count")
      total_returns := safe_float (rowGet row "Total Returns")
      net_sales := safe_float (rowGet row "Net Sales")
      others_count := safe_int (rowGet row "Others Count")
      total_count := safe_int (rowGet row "Total Count") }

/-- `_determine_auth_status` over the invoice's set of auth messages.
The argument list stands for the Python set in iteration order (modelled as
insertion order; CPython leaves set iteration order unspecified). -/
def determine_auth_status (auth_messages : List String) : String :=
  match auth_messages with
  | [] => "NA"
  | first :: _ =>
    if "APPROVAL" ∈ auth_messages then "APPROVAL"
    else if "DECLINED:NSF" ∈ auth_messages then "DECLINED:NSF"
    else if "DECLINED:CLOSED" ∈ auth_messages then "DECLINED:CLOSED"
    else if "SUSPECTED FRAUD" ∈ auth_messages then "SUSPECTED FRAUD"
    else if "WITHDRAWAL LIMIT" ∈ auth_messages then "WITHDRAWAL LIMIT"
    else
      match auth_messages.find? (fun msg => pyStartsWith "DECLINED" msg) with
      | some msg => msg
      | none => first

/-- One resolved CURRENT-batch invoice. -/
structure CurrentInvoice where
  final_status : String
  is_data_issue : Bool
  auth_messages : List String
  auth_sequence : List String
  row_count : Nat
  raw_rows : List Row
deriving DecidableEq, Repr

/-- Stats block of `resolve_converge_current`. -/
structure CurrentStats where
  total_invoices : Nat
  data_inconsistencies : Nat
deriving DecidableEq, Repr

/-- Return value of `resolve_converge_current`. -/
structure CurrentResult where
  invoices : List (String × CurrentInvoice)
  summary : Option Summary
  stats : CurrentStats
deriving DecidableEq, Repr

/-- The per-invoice message accumulation loop: (distinct messages, sequence). -/
def authMessagesOf (rows : List Row) : List String × List String :=
  rows.foldl
    (fun (p : List String × List String) r =>
      let auth := pyUpper (pyStrip ((rowGet r "Auth Message").getD ""))
      if auth == "" then (p.1, p.2 ++ ["NA"])
      else ((if p.1.contains auth then p.1 else p.1 ++ [auth]), p.2 ++ [auth]))
    ([], [])

/-- Resolve one CURRENT-batch invoice from its raw rows. -/
def resolveCurrentInvoice (rows : List Row) : CurrentInvoice :=
  let msgs := (authMessagesOf rows).1
  { final_status := determine_auth_status msgs
    is_data_issue := decide (1 < msgs.length)
    auth_messages := msgs
    auth_sequence := (authMessagesOf rows).2
    row_count := rows.length
    raw_rows := rows }

/-- Row-loop step of `resolve_converge_current`: group by invoice, capture summary. -/
def currentStep (st : List (String × List Row) × Option Summary) (row : Row) :
    List (String × List Row) × Option Summary :=
  let invoice := pyStrip ((rowGet row "Invoice Number").getD "")
  if invoice == "" then
    match parse_summary_row row with
    | some s => (st.1, some s)
    | none => st
  else (addToGroup invoice row st.1, st.2)

/-- `resolve_converge_current`, threading the input list through the row loop
to make its non-mutation provable (the pure result is the first component). -/
def resolve_converge_currentST (rows : List Row) :
    Except ValidationError CurrentResult × List Row :=
  match validate_csv_columns rows REQUIRED_CURRENT_COLUMNS "Converge CURRENT" with
  | .error e => (.error e, rows)
  | .ok _ =>
    let folded := rows.foldl
      (fun (p : (List (String × List Row) × Option Summary) × List Row) r =>
        (currentStep p.1 r, p.2)) (([], none), rows)
    let groups := folded.1.1
    let resolved := groups.map (fun g => (g.1, resolveCurrentInvoice g.2))
    (.ok
      { invoices := resolved
        summary := folded.1.2
        stats :=
          { total_invoices := resolved.length
            data_inconsistencies := (resolved.filter (fun p => p.2.is_data_issue)).length } },
      folded.2)

/-- `resolve_converge_current` (pure view). -/
def resolve_converge_current (rows : List Row) : Except ValidationError CurrentResult :=
  (resolve_converge_currentST rows).1

/-- A normalized SETTLED-batch row. -/
structure NormRow where
  invoice : String
  transaction_type : String
  transaction_status : String
  amount : Option ℚ
  raw : Row
deriving DecidableEq, Repr

/-- One resolved SETTLED-batch invoice. -/
structure SettledInvoice where
  settled : Bool
  sale_count : Nat
  return_count : Nat
  other_count : Nat
  sale_amount : ℚ
  return_amount : ℚ
  net_amount : ℚ
  has_anomaly : Bool
  anomaly_reasons : List String
  raw_rows : List NormRow
deriving DecidableEq, Repr

/-- Stats block of `resolve_converge_settled`. -/
structure SettledStats where
  total_invoices : Nat
  settled_count : Nat
  anomaly_count : Nat
  multiple_sales_count : Nat
deriving DecidableEq, Repr

/-- Return value of `resolve_converge_settled`. -/
structure SettledResult where
  invoice_level : List (String × SettledInvoice)
  summary : Option Summary
  stats : SettledStats
deriving DecidableEq, Repr

/-- Row normalization inside the SETTLED row loop. -/
def normalizeSettledRow (invoice : String) (row : Row) : NormRow :=
  { invoice := invoice
    transaction_type := pyUpper (pyStrip ((rowGet row "Original Transaction Type").getD ""))
    transaction_status := pyUpper (pyStrip ((rowGet row "Transaction Status").getD ""))
    amount := safe_float (rowGet row "Original Amount")
    raw := row }

/-- Insertion-ordered deduplication (models building a Python set). -/
def dedupList (l : List String) : List String :=
  l.foldl (fun acc x => if acc.contains x then acc else acc ++ [x]) []

/-- Resolve one SETTLED-batch invoice from its normalized rows. -/
def resolveSettledInvoice (rows : List NormRow) : SettledInvoice :=
  let sale_rows := rows.filter (fun r => r.transaction_type == "SALE")
  let return_rows := rows.filter (fun r => r.transaction_type == "RETURN")
  let other_rows := rows.filter
    (fun r => !(r.transaction_type == "SALE" || r.transaction_type == "RETURN"
                || r.transaction_type == ""))
  let sale_count := sale_rows.length
  let return_count := return_rows.length
  let reasons :=
    (if 1 < sale_count then [s!"MULTIPLE_SALES:{sale_count}"] else [])
    ++ (if sale_count == 0 && 0 < return_count then ["RETURN_WITHOUT_SALE"] else [])
    ++ (if !other_rows.isEmpty then
          let other_types := dedupList (other_rows.map (fun r => r.transaction_type))
          [s!"NON_STANDARD_TYPES:{other_types}"]
        else [])
  { settled := decide (0 < sale_count)
    sale_count := sale_count
    return_count := return_count
    other_count := other_rows.length
    sale_amount := sale_rows.foldl (fun s r => s + (r.amount.getD 0)) 0
    return_amount := return_rows.foldl (fun s r => s + (r.amount.getD 0)) 0
    net_amount := sale_rows.foldl (fun s r => s + (r.amount.getD 0)) 0
      - return_rows.foldl (fun s r => s + (r.amount.getD 0)) 0
    has_anomaly := !reasons.isEmpty
    anomaly_reasons := reasons
    raw_rows := rows }

/-- Row-loop step of `resolve_converge_settled`. -/
def settledStep (st : List (String × List NormRow) × Option Summary) (row : Row) :
    List (String × List NormRow) × Option Summary :=
  let invoice := pyStrip ((rowGet row "Invoice Number").getD "")
  if invoice == "" then
    match parse_summary_row row with
    | some s => (st.1, some s)
    | none => st
  else (addToGroup invoice (normalizeSettledRow invoice row) st.1, st.2)

/-- `resolve_converge_settled`, threading the input list (see currentST). -/
def resolve_converge_settledST (rows : List Row) :
    Except ValidationError SettledResult × List Row :=
  match validate_csv_columns rows REQUIRED_SETTLED_COLUMNS "Converge SETTLED" with
  | .error e => (.error e, rows)
  | .ok _ =>
    let folded := rows.foldl
      (fun (p : (List (String × List NormRow) × Option Summary) × List Row) r =>
        (settledStep p.1 r, p.2)) (([], none), rows)
    let groups := folded.1.1
    let resolved := groups.map (fun g => (g.1, resolveSettledInvoice g.2))
    (.ok
      { invoice_level := resolved
        summary := folded.1.2
        stats :=
          { total_invoices := resolved.length
            settled_count := (resolved.filter (fun p => p.2.settled)).length
            anomaly_count := (resolved.filter (fun p => p.2.has_anomaly)).length
            multiple_sales_count :=
              (resolved.filter (fun p => decide (1 < p.2.sale_count))).length } },
      folded.2)

/-- `resolve_converge_settled` (pure view). -/
def resolve_converge_settled (rows : List Row) : Except ValidationError SettledResult :=
  (resolve_converge_settledST rows).1

/-- A Python value reaching `float(...)` in `_validate_amounts`: already numeric
or a string whose conversion may fail. -/
inductive PyVal where
  | num (q : ℚ)
  | str (s : String)
deriving DecidableEq, Repr

/-- `float(v)` on a `PyVal`: `none` models a raised `ValueError`. -/
def pyFloat? : PyVal → Option ℚ
  | .num q => some q
  | .str s => parseFloat? s

/-- One settlement-amount mismatch record. -/
structure Mismatch where
  order_id : String
  order_total : ℚ
  settled_amount : ℚ
  difference : ℚ
deriving DecidableEq, Repr

/-- `_validate_amounts`: compare settled amount against order total.
Returns (state, action_reason, appended mismatch record). -/
def validate_amounts (order_id : String) (order_total : Option PyVal)
    (settled_amount : Option ℚ) : String × Option String × Option Mismatch :=
  match order_total, settled_amount with
  | some t, some s =>
    match pyFloat? t with
    | some tq =>
      if 1 / 100 < |s - tq| then
        ("ACTION_REQUIRED", some "SETTLEMENT_AMOUNT_MISMATCH",
          some { order_id := order_id, order_total := tq, settled_amount := s,
                 difference := s - tq })
      else ("SUCCESS", none, none)
    | none => ("SUCCESS", none, none)
  | _, _ => ("SUCCESS", none, none)

/-- An order row from the order-management DB, with its derived fields. -/
structure CxpOrder where
  process_number : String
  notif_email : Option String
  notify_mobile_no : Option String
  order_date : Option Int
  fulfillment_status : Option String
  order_state : Option String
deriving DecidableEq, Repr

/-- The per-order record stored into `orders_result`. -/
structure OrderRecord where
  state : String
  action_reason : Option String
  cxp_status : Option String
  cxp_db_status : Option String
  converge_status : String
  is_settled : Bool
  settled_amount : Option ℚ
  order_total : Option PyVal
  is_data_issue : Bool
  has_asn : Bool
  settled_no_asn : Bool
  is_retry_success : Bool
  order_date : Option Int
  email : Option String
  phone : Option String
  previous_failed_attempt : Option String
deriving DecidableEq, Repr

/-- Output of the priority chain for one order:
(state, action_reason, mismatch record, data-inconsistency flag). -/
structure CoreOut where
  state : String
  action_reason : Option String
  mismatch : Option Mismatch
  data_inconsistency : Bool
deriving DecidableEq, Repr

/-- The priority chain (PRIORITY 1 … DEFAULT) of `classify_orders`. -/
def classifyCore (order_id : String) (cxp_status cxp_db_status : Option String)
    (converge_status : String) (is_data_issue is_settled : Bool)
    (settled_amount : Option ℚ) (has_settlement_anomaly has_asn : Bool)
    (order_total : Option PyVal) : CoreOut :=
  if cxp_db_status = some "ERROR" then
    ⟨"ACTION_REQUIRED", some "CXP_ERROR_STATE", none, false⟩
  else if cxp_db_status = some "SUCCESS" ∧ converge_status = "NA" ∧ ¬is_settled
      ∧ (cxp_status = some "ORDERED" ∨ cxp_status = some "CLAIMED") then
    ⟨"ACTION_REQUIRED", some "NO_PAYMENT_DATA", none, false⟩
  else if cxp_db_status = some "PAYMENT_CANCELLED" then
    ⟨"FAILED", none, none, false⟩
  else if has_asn ∧ ¬is_settled then
    ⟨"ACTION_REQUIRED", some "ASN_NOT_SETTLED", none, false⟩
  else if cxp_status = some "SHIPPED" ∧ ¬is_settled then
    ⟨"ACTION_REQUIRED", some "SHIPPED_NOT_SETTLED", none, false⟩
  else if cxp_status = some "REJECTED" ∧ converge_status = "APPROVAL" then
    ⟨"ORDER REJECTED", none, none, false⟩
  else if ¬truthy cxp_status ∧ converge_status = "APPROVAL" then
    ⟨"ACTION_REQUIRED", some "PAYMENT_SUCCESS_ORDER_FAILED", none, false⟩
  else if has_settlement_anomaly then
    ⟨"ACTION_REQUIRED", some "SETTLEMENT_ANOMALY", none, false⟩
  else if (cxp_status = some "SHIPPED" ∨ has_asn) ∧ is_settled then
    let v := validate_amounts order_id order_total settled_amount
    ⟨v.1, v.2.1, v.2.2, false⟩
  else if (cxp_status = some "ORDERED" ∨ cxp_status = some "CLAIMED")
      ∧ converge_status = "APPROVAL" then
    if is_data_issue then
      ⟨"SUCCESS", some "CONVERGE_DATA_INCONSISTENCY", none, true⟩
    else
      let v := validate_amounts order_id order_total settled_amount
      ⟨v.1, v.2.1, v.2.2, false⟩
  else if strContainsSub converge_status "DECLINED" ∨ converge_status = "SUSPECTED FRAUD" then
    ⟨"FAILED", none, none, false⟩
  else
    ⟨"FAILED", none, none, false⟩

/-- Result of classifying one order. -/
structure ClassifiedOrder where
  record : OrderRecord
  mismatch : Option Mismatch
  data_inconsistency : Bool
deriving DecidableEq, Repr

/-- Classify one order: derive the Converge/settled/ASN context, run the
priority chain, then apply the SETTLED_NO_ASN post-check. -/
def classifyOrder (converge_invoices : List (String × CurrentInvoice))
    (settled_invoices : List (String × SettledInvoice))
    (order_totals_map : List (String × PyVal)) (asn_set : List String)
    (order : CxpOrder) : ClassifiedOrder :=
  let order_id := order.process_number
  let converge_info := lookupAssoc converge_invoices order_id
  let settled_info := lookupAssoc settled_invoices order_id
  let converge_status := (converge_info.map (fun i => i.final_status)).getD "NA"
  let is_data_issue := (converge_info.map (fun i => i.is_data_issue)).getD false
  let is_settled := (settled_info.map (fun i => i.settled)).getD false
  let settled_amount := settled_info.map (fun i => i.net_amount)
  let has_settlement_anomaly := (settled_info.map (fun i => i.has_anomaly)).getD false
  let has_asn := asn_set.contains order_id
  let order_total := lookupAssoc order_totals_map order_id
  let core := classifyCore order_id order.fulfillment_status order.order_state
    converge_status is_data_issue is_settled settled_amount
    has_settlement_anomaly has_asn order_total
  let settled_no_asn := is_settled && !has_asn && (order.fulfillment_status == some "SHIPPED")
  let fin :=
    if settled_no_asn ∧ core.state = "SUCCESS" then
      ("ACTION_REQUIRED", some "SETTLED_NO_ASN")
    else (core.state, core.action_reason)
  { record :=
      { state := fin.1
        action_reason := fin.2
        cxp_status := order.fulfillment_status
        cxp_db_status := order.order_state
        converge_status := converge_status
        is_settled := is_settled
        settled_amount := settled_amount
        order_total := order_total
        is_data_issue := is_data_issue
        has_asn := has_asn
        settled_no_asn := settled_no_asn
        is_retry_success := false
        order_date := order.order_date
        email := order.notif_email
        phone := order.notify_mobile_no
        previous_failed_attempt := none }
    mismatch := core.mismatch
    data_inconsistency := core.data_inconsistency }

/-- One entry of `customer_history`. -/
structure Attempt where
  order_id : String
  state : String
  order_date : Int
deriving DecidableEq, Repr

/-- First-pass accumulators of `classify_orders` (all function-local). -/
structure Acc where
  orders_result : List (String × OrderRecord)
  successful_orders : List String
  rejected_orders : List String
  failed_orders : List String
  action_required_orders : List String
  converge_data_inconsistencies : List String
  settlement_amount_mismatches : List Mismatch
  settled_no_asn_orders : List String
  customer_history : List (String × List Attempt)
deriving Repr

/-- Inputs of `classify_orders`. -/
structure ClassifyInputs where
  cxp_orders : List CxpOrder
  converge_current : CurrentResult
  converge_settled : SettledResult
  order_totals : Option (List (String × Option PyVal))
  asn_process_numbers : Option (List String)
deriving Repr

/-- `order_totals` normalization: drop entries whose value is `None`. -/
def orderTotalsMap (order_totals : Option (List (String × Option PyVal))) :
    List (String × PyVal) :=
  match order_totals with
  | none => []
  | some l => l.filterMap (fun p => p.2.map (fun v => (p.1, v)))

/-- The empty first-pass accumulator. -/
def initAcc : Acc :=
  ⟨[], [], [], [], [], [], [], [], []⟩

/-- First-pass loop body of `classify_orders` for one order. -/
def classifyStep (inp : ClassifyInputs) (acc : Acc) (order : CxpOrder) : Acc :=
  let co := classifyOrder inp.converge_current.invoices inp.converge_settled.invoice_level
    (orderTotalsMap inp.order_totals) (inp.asn_process_numbers.getD []) order
  let oid := order.process_number
  let s := co.record.state
  { orders_result := insertAssoc oid co.record acc.orders_result
    successful_orders :=
      if s = "SUCCESS" then acc.successful_orders ++ [oid] else acc.successful_orders
    failed_orders :=
      if s = "FAILED" then insertSet oid acc.failed_orders else acc.failed_orders
    action_required_orders :=
      if s = "ACTION_REQUIRED" then acc.action_required_orders ++ [oid]
      else acc.action_required_orders
    rejected_orders :=
      if s = "REJECTES" then acc.rejected_orders ++ [oid] else acc.rejected_orders
    converge_data_inconsistencies :=
      if co.data_inconsistency then acc.converge_data_inconsistencies ++ [oid]
      else acc.converge_data_inconsistencies
    settlement_amount_mismatches :=
      match co.mismatch with
      | some m => acc.settlement_amount_mismatches ++ [m]
      | none => acc.settlement_amount_mismatches
    settled_no_asn_orders :=
      if co.record.settled_no_asn then acc.settled_no_asn_orders ++ [oid]
      else acc.settled_no_asn_orders
    customer_history :=
      if truthy (pyOrStr order.notif_email order.notify_mobile_no) then
        match (pyOrStr order.notif_email order.notify_mobile_no), order.order_date with
        | some key, some d =>
          addToGroup key ⟨oid, s, d⟩ acc.customer_history
        | _, _ => acc.customer_history
      else acc.customer_history }

/-- Stable insertion keeping existing entries with equal or smaller dates first. -/
def insertByDate (a : Attempt) : List Attempt → List Attempt
  | [] => [a]
  | b :: l => if b.order_date ≤ a.order_date then b :: insertByDate a l else a :: b :: l

/-- Stable sort by `order_date` ascending (models Python's stable `sorted`). -/
def sortByDate (l : List Attempt) : List Attempt :=
  l.foldl (fun acc a => insertByDate a acc) []

/-- The retry-link condition on an adjacent pair of attempts: earlier FAILED
or ACTION_REQUIRED, later SUCCESS, and 0-7 days apart. -/
abbrev retryCond (a b : Attempt) : Prop :=
  (a.state = "FAILED" ∨ a.state = "ACTION_REQUIRED") ∧ b.state = "SUCCESS"
    ∧ 0 ≤ b.order_date - a.order_date ∧ b.order_date - a.order_date ≤ 7

/-- Adjacent-pair retry scan over one customer's sorted attempts:
emits (success order id, previous failed attempt id) pairs. -/
def retryPairs : List Attempt → List (String × String)
  | a :: b :: rest =>
    (if retryCond a b then [(b.order_id, a.order_id)] else []) ++ retryPairs (b :: rest)
  | _ => []

/-- Mark one order as a retry success (second-pass in-place dict update). -/
def retryMark (prev : String) (r : OrderRecord) : OrderRecord :=
  { r with is_retry_success := true, previous_failed_attempt := some prev }

/-- Apply one retry pair: update the orders map and extend the retry list. -/
def applyPair (st : List (String × OrderRecord) × List String) (p : String × String) :
    List (String × OrderRecord) × List String :=
  (updateAssoc p.1 (retryMark p.2) st.1, st.2 ++ [p.1])

/-- Second pass of `classify_orders`: retry detection over customer groups. -/
def secondPass (hist : List (String × List Attempt))
    (orders0 : List (String × OrderRecord)) :
    List (String × OrderRecord) × List String :=
  hist.foldl
    (fun st c =>
      if c.2.length < 2 then st
      else (retryPairs (sortByDate c.2)).foldl applyPair st)
    (orders0, [])

/-- Return value of `classify_orders`. -/
structure ClassifyResult where
  orders : List (String × OrderRecord)
  successful_orders : List String
  failed_orders : List String
  action_required_orders : List String
  retry_success_orders : List String
  converge_data_inconsistencies : List String
  settlement_amount_mismatches : List Mismatch
  settled_no_asn_orders : List String
  rejected_orders : List String
deriving Repr

/-- `classify_orders`, threading the inputs through the first-pass loop to make
their non-mutation provable (the pure result is the first component). -/
def classify_ordersST (inp : ClassifyInputs) : ClassifyResult × ClassifyInputs :=
  let folded := inp.cxp_orders.foldl
    (fun (p : Acc × ClassifyInputs) o => (classifyStep p.2 p.1 o, p.2)) (initAcc, inp)
  let acc := folded.1
  let snd := secondPass acc.customer_history acc.orders_result
  ({ orders := snd.1
     successful_orders := acc.successful_orders
     failed_orders := acc.failed_orders
     action_required_orders := acc.action_required_orders
     retry_success_orders := snd.2
     converge_data_inconsistencies := acc.converge_data_inconsistencies
     settlement_amount_mismatches := acc.settlement_amount_mismatches
     settled_no_asn_orders := acc.settled_no_asn_orders
     rejected_orders := acc.rejected_orders }, folded.2)

/-- `classify_orders` (pure view). -/
def classify_orders (inp : ClassifyInputs) : ClassifyResult :=
  (classify_ordersST inp).1

/-- `isOk` on a resolver result. -/
def exceptIsOk : Except ValidationError α → Bool
  | .ok _ => true
  | .error _ => false

/-- The resolved CURRENT invoice of a batch, `none` on validation failure. -/
def currentInvoiceOf (rows : List Row) (inv : String) : Option CurrentInvoice :=
  match resolve_converge_current rows with
  | .ok r => lookupAssoc r.invoices inv
  | .error _ => none

/-- An empty resolved CURRENT batch (for concrete test inputs). -/
def emptyCurrent : CurrentResult := ⟨[], none, ⟨0, 0⟩⟩

/-- An empty resolved SETTLED batch (for concrete test inputs). -/
def emptySettled : SettledResult := ⟨[], none, ⟨0, 0, 0, 0⟩⟩

/-- Placeholder record for total lookups on concrete inputs. -/
def dummyRecord : OrderRecord :=
  ⟨"", none, none, none, "", false, none, none, false, false, false, false, none, none, none, none⟩

/-- Total lookup into a classification result's orders map. -/
def getRec (res : ClassifyResult) (oid : String) : OrderRecord :=
  match lookupAssoc res.orders oid with
  | some r => r
  | none => dummyRecord

/-- A resolved CURRENT batch mapping "P1" to APPROVAL (C1 input). -/
def C1current : CurrentResult :=
  ⟨[("P1", ⟨"APPROVAL", false, ["APPROVAL"], ["APPROVAL"], 1, []⟩)], none, ⟨1, 0⟩⟩

/-- C1 failing input: fulfillment REJECTED with authorization APPROVAL. -/
def C1inp : ClassifyInputs :=
  ⟨[⟨"P1", none, none, none, some "REJECTED", some "SUCCESS"⟩],
    C1current, emptySettled, none, none⟩

/-- C2 counterexample batch: two DECLINED variants, A first. -/
def C2rowsAB : List Row :=
  [[("Invoice Number", some "INV1"), ("Auth Message", some "Declined:A")],
   [("Invoice Number", some "INV1"), ("Auth Message", some "Declined:B")]]

/-- C2 counterexample batch: the same two rows, B first. -/
def C2rowsBA : List Row :=
  [[("Invoice Number", some "INV1"), ("Auth Message", some "Declined:B")],
   [("Invoice Number", some "INV1"), ("Auth Message", some "Declined:A")]]

/-- C3 witness batch: one SALE and one RETURN row for invoice "I1". -/
def C3rows : List Row :=
  [[("Invoice Number", some "I1"), ("Original Transaction Type", some "Sale"),
    ("Transaction Status", some "Settled"), ("Original Amount", some "50.00")],
   [("Invoice Number", some "I1"), ("Original Transaction Type", some "Return"),
    ("Transaction Status", some "Settled"), ("Original Amount", some "20.00")]]

/-- The resolved C3 witness batch (falls back to the empty result, unreached). -/
def C3out : SettledResult :=
  match resolve_converge_settled C3rows with
  | .ok o => o
  | .error _ => emptySettled

/-- Placeholder settled invoice for total lookups on concrete inputs. -/
def dummySettledInvoice : SettledInvoice := ⟨false, 0, 0, 0, 0, 0, 0, false, [], []⟩

/-- The resolved invoice "I1" of the C3 witness batch. -/
def C3rec : SettledInvoice :=
  match lookupAssoc C3out.invoice_level "I1" with
  | some r => r
  | none => dummySettledInvoice

/-- C4 witness input: a single order in DB state ERROR. -/
def C4inp : ClassifyInputs :=
  ⟨[⟨"E1", none, none, none, some "SHIPPED", some "ERROR"⟩],
    C1current, emptySettled, none, some ["E1"]⟩

/-- C5 witness input: SHIPPED order with an ASN but no settlement record. -/
def C5inp : ClassifyInputs :=
  ⟨[⟨"A1", none, none, none, some "SHIPPED", some "SUCCESS"⟩],
    ⟨[("A1", ⟨"APPROVAL", false, ["APPROVAL"], ["APPROVAL"], 1, []⟩)], none, ⟨1, 0⟩⟩,
    emptySettled, none, some ["A1"]⟩

/-- C8 witness batch: one row carrying both required CURRENT columns. -/
def C8okRows : List Row :=
  [[("Invoice Number", some "I1"), ("Auth Message", some "APPROVAL")]]

/-- C10 input: two SUCCESS orders sharing process_number "D1". -/
def C10dupInp : ClassifyInputs :=
  ⟨[⟨"D1", none, none, none, some "ORDERED", some "SUCCESS"⟩,
    ⟨"D1", none, none, none, some "CLAIMED", some "SUCCESS"⟩],
    ⟨[("D1", ⟨"APPROVAL", false, ["APPROVAL"], ["APPROVAL"], 1, []⟩)], none, ⟨1, 0⟩⟩,
    emptySettled, none, none⟩

/-- C10 input: two FAILED orders sharing process_number "F1". -/
def C10dupFailInp : ClassifyInputs :=
  ⟨[⟨"F1", none, none, none, none, some "PAYMENT_CANCELLED"⟩,
    ⟨"F1", none, none, none, none, some "PAYMENT_CANCELLED"⟩],
    emptyCurrent, emptySettled, none, none⟩

/-- C10 input: two ACTION_REQUIRED orders sharing process_number "R1". -/
def C10dupARInp : ClassifyInputs :=
  ⟨[⟨"R1", none, none, none, none, some "ERROR"⟩,
    ⟨"R1", none, none, none, none, some "ERROR"⟩],
    emptyCurrent, emptySettled, none, none⟩

/-- C10 witness input: two orders with distinct process_numbers. -/
def C10winp : ClassifyInputs :=
  ⟨[⟨"W1", none, none, none, none, some "PAYMENT_CANCELLED"⟩,
    ⟨"W2", none, none, none, none, some "PAYMENT_CANCELLED"⟩],
    emptyCurrent, emptySettled, none, none⟩

/-! ## General lemmas about the embedding's building blocks -/

theorem foldl_snd_fixed {α β γ : Type _} (g : β × α → γ → β) (l : List γ) (b : β) (a : α) :
    (l.foldl (fun p x => (g p x, p.2)) (b, a)).2 = a := by
  induction l generalizing b with
  | nil => rfl
  | cons x xs ih => simpa using ih (g (b, a) x)

theorem foldl_inv {β γ : Type _} (Inv : β → Prop) (step : β → γ → β) (l : List γ) (b : β)
    (hstep : ∀ b' x, Inv b' → Inv (step b' x)) (hb : Inv b) : Inv (l.foldl step b) := by
  induction l generalizing b with
  | nil => exact hb
  | cons x xs ih => exact ih _ (hstep _ _ hb)

/-- Every value stored in an association list satisfies `P`. -/
def AllVals (P : α → Prop) (l : List (String × α)) : Prop :=
  ∀ p ∈ l, P p.2

theorem allVals_lookup {P : α → Prop} {l : List (String × α)} (h : AllVals P l)
    {k : String} {v : α} (hl : lookupAssoc l k = some v) : P v := by
  unfold lookupAssoc at hl
  cases hf : l.find? (fun p => p.1 == k) with
  | none => simp [hf] at hl
  | some p =>
    simp [hf] at hl
    subst hl
    exact h p (List.mem_of_find?_eq_some hf)

theorem allVals_insert {P : α → Prop} {l : List (String × α)} (h : AllVals P l)
    {k : String} {v : α} (hv : P v) : AllVals P (insertAssoc k v l) := by
  induction l with
  | nil => intro p hp; simp [insertAssoc] at hp; subst hp; exact hv
  | cons q rest ih =>
    intro p hp
    simp only [insertAssoc] at hp
    by_cases hk : q.1 == k
    · rw [if_pos hk] at hp
      rcases List.mem_cons.mp hp with h1 | h2
      · subst h1; exact hv
      · exact h _ (List.mem_cons_of_mem _ h2)
    · rw [if_neg hk] at hp
      rcases List.mem_cons.mp hp with h1 | h2
      · subst h1; exact h _ (List.mem_cons_self _ _)
      · exact ih (fun q' hq' => h _ (List.mem_cons_of_mem _ hq')) _ h2

theorem allVals_update {P : α → Prop} {l : List (String × α)} (h : AllVals P l)
    {k : String} {f : α → α} (hf : ∀ x, P x → P (f x)) : AllVals P (updateAssoc k f l) := by
  induction l with
  | nil => intro p hp; simp [updateAssoc] at hp
  | cons q rest ih =>
    intro p hp
    simp only [updateAssoc] at hp
    by_cases hk : q.1 == k
    · rw [if_pos hk] at hp
      rcases List.mem_cons.mp hp with h1 | h2
      · subst h1; exact hf _ (h _ (List.mem_cons_self _ _))
      · exact h _ (List.mem_cons_of_mem _ h2)
    · rw [if_neg hk] at hp
      rcases List.mem_cons.mp hp with h1 | h2
      · subst h1; exact h _ (List.mem_cons_self _ _)
      · exact ih (fun q' hq' => h _ (List.mem_cons_of_mem _ hq')) _ h2

theorem lookupAssoc_map {α β : Type _} (f : α → β) (l : List (String × α)) (k : String) :
    lookupAssoc (l.map (fun p => (p.1, f p.2))) k = (lookupAssoc l k).map f := by
  induction l with
  | nil => rfl
  | cons p rest ih =>
    by_cases h : p.1 == k
    · simp [lookupAssoc, List.find?, h]
    · simpa [lookupAssoc, List.find?, h] using ih

/-! ## Lemmas about `determine_auth_status` -/

theorem det_approval {l : List String} (h : "APPROVAL" ∈ l) :
    determine_auth_status l = "APPROVAL" := by
  cases l with
  | nil => simp at h
  | cons a t =>
    simp only [determine_auth_status]
    rw [if_pos h]

theorem det_nsf {l : List String} (h1 : "APPROVAL" ∉ l) (h2 : "DECLINED:NSF" ∈ l) :
    determine_auth_status l = "DECLINED:NSF" := by
  cases l with
  | nil => simp at h2
  | cons a t =>
    simp only [determine_auth_status]
    rw [if_neg h1, if_pos h2]

theorem det_closed {l : List String} (h1 : "APPROVAL" ∉ l) (h2 : "DECLINED:NSF" ∉ l)
    (h3 : "DECLINED:CLOSED" ∈ l) : determine_auth_status l = "DECLINED:CLOSED" := by
  cases l with
  | nil => simp at h3
  | cons a t =>
    simp only [determine_auth_status]
    rw [if_neg h1, if_neg h2, if_pos h3]

theorem det_fraud {l : List String} (h1 : "APPROVAL" ∉ l) (h2 : "DECLINED:NSF" ∉ l)
    (h3 : "DECLINED:CLOSED" ∉ l) (h4 : "SUSPECTED FRAUD" ∈ l) :
    determine_auth_status l = "SUSPECTED FRAUD" := by
  cases l with
  | nil => simp at h4
  | cons a t =>
    simp only [determine_auth_status]
    rw [if_neg h1, if_neg h2, if_neg h3, if_pos h4]

theorem det_limit {l : List String} (h1 : "APPROVAL" ∉ l) (h2 : "DECLINED:NSF" ∉ l)
    (h3 : "DECLINED:CLOSED" ∉ l) (h4 : "SUSPECTED FRAUD" ∉ l)
    (h5 : "WITHDRAWAL LIMIT" ∈ l) : determine_auth_status l = "WITHDRAWAL LIMIT" := by
  cases l with
  | nil => simp at h5
  | cons a t =>
    simp only [determine_auth_status]
    rw [if_neg h1, if_neg h2, if_neg h3, if_neg h4, if_pos h5]

/-! ## Claim theorems -/

/-- C9: `resolve_converge_current`, `resolve_converge_settled` and
`classify_orders` do not modify their inputs: in the state-threading embedding,
where each loop iteration carries the input structures and could return them
changed, the carried inputs come back equal to the originals. -/
theorem core_functions_do_not_mutate_inputs :
    ∀ (rows1 rows2 : List Row) (inp : ClassifyInputs),
      (resolve_converge_currentST rows1).2 = rows1
      ∧ (resolve_converge_settledST rows2).2 = rows2
      ∧ (classify_ordersST inp).2 = inp := by
  intro rows1 rows2 inp
  refine ⟨?_, ?_, ?_⟩
  · unfold resolve_converge_currentST
    cases validate_csv_columns rows1 REQUIRED_CURRENT_COLUMNS "Converge CURRENT" with
    | error e => rfl
    | ok u => exact foldl_snd_fixed (fun p r => currentStep p.1 r) rows1 ([], none) rows1
  · unfold resolve_converge_settledST
    cases validate_csv_columns rows2 REQUIRED_SETTLED_COLUMNS "Converge SETTLED" with
    | error e => rfl
    | ok u => exact foldl_snd_fixed (fun p r => settledStep p.1 r) rows2 ([], none) rows2
  · exact foldl_snd_fixed (fun p o => classifyStep p.2 p.1 o) inp.cxp_orders initAcc inp

/-- C2 counterexample: two CURRENT batches whose rows for invoice "INV1" carry
the same set of normalized auth messages (only in a different row order)
resolve to different `final_status` values, so `final_status` is not a function
of the message set. -/
theorem final_status_depends_on_row_order :
    List.Perm (((currentInvoiceOf C2rowsAB "INV1").map (fun i => i.auth_messages)).getD [])
      (((currentInvoiceOf C2rowsBA "INV1").map (fun i => i.auth_messages)).getD [])
    ∧ (currentInvoiceOf C2rowsAB "INV1").map (fun i => i.final_status) = some "DECLINED:A"
    ∧ (currentInvoiceOf C2rowsBA "INV1").map (fun i => i.final_status) = some "DECLINED:B" := by
  refine ⟨by decide, by decide, by decide⟩

/-- C2 (amended): `final_status` is invariant under reordering of an invoice's
distinct auth messages whenever the set contains one of the five priority
messages (APPROVAL, DECLINED:NSF, DECLINED:CLOSED, SUSPECTED FRAUD,
WITHDRAWAL LIMIT) or is empty; the remaining fallback cases pick a
set-iteration-order-dependent element. -/
theorem final_status_deterministic_on_priority_messages :
    ∀ (l₁ l₂ : List String), l₁.Perm l₂ →
      ("APPROVAL" ∈ l₁ ∨ "DECLINED:NSF" ∈ l₁ ∨ "DECLINED:CLOSED" ∈ l₁
        ∨ "SUSPECTED FRAUD" ∈ l₁ ∨ "WITHDRAWAL LIMIT" ∈ l₁ ∨ l₁ = []) →
      determine_auth_status l₁ = determine_auth_status l₂ := by
  intro l₁ l₂ hp hdisj
  by_cases hA : "APPROVAL" ∈ l₁
  · rw [det_approval hA, det_approval (hp.mem_iff.mp hA)]
  by_cases hN : "DECLINED:NSF" ∈ l₁
  · rw [det_nsf hA hN,
      det_nsf (fun c => hA (hp.mem_iff.mpr c)) (hp.mem_iff.mp hN)]
  by_cases hC : "DECLINED:CLOSED" ∈ l₁
  · rw [det_closed hA hN hC,
      det_closed (fun c => hA (hp.mem_iff.mpr c)) (fun c => hN (hp.mem_iff.mpr c))
        (hp.mem_iff.mp hC)]
  by_cases hF : "SUSPECTED FRAUD" ∈ l₁
  · rw [det_fraud hA hN hC hF,
      det_fraud (fun c => hA (hp.mem_iff.mpr c)) (fun c => hN (hp.mem_iff.mpr c))
        (fun c => hC (hp.mem_iff.mpr c)) (hp.mem_iff.mp hF)]
  by_cases hW : "WITHDRAWAL LIMIT" ∈ l₁
  · rw [det_limit hA hN hC hF hW,
      det_limit (fun c => hA (hp.mem_iff.mpr c)) (fun c => hN (hp.mem_iff.mpr c))
        (fun c => hC (hp.mem_iff.mpr c)) (fun c => hF (hp.mem_iff.mpr c))
        (hp.mem_iff.mp hW)]
  · rcases hdisj with h | h | h | h | h | h
    · exact absurd h hA
    · exact absurd h hN
    · exact absurd h hC
    · exact absurd h hF
    · exact absurd h hW
    · subst h
      rw [hp.symm.eq_nil]

/-- C2 witness: the amended determinism theorem applied to a concrete
two-message set containing APPROVAL, presented in both orders. -/
theorem final_status_deterministic_witness :
    determine_auth_status ["X", "APPROVAL"] = determine_auth_status ["APPROVAL", "X"] :=
  final_status_deterministic_on_priority_messages ["X", "APPROVAL"] ["APPROVAL", "X"]
    (by decide) (Or.inl (by decide))

/-- C6: with both amounts present and convertible, `_validate_amounts` flags
ACTION_REQUIRED / SETTLEMENT_AMOUNT_MISMATCH and records
{order_id, order_total, settled_amount, difference = settled − total} exactly
when |settled − total| > 0.01; at or below the 0.01 boundary, with an amount
missing, or with a failed conversion it returns SUCCESS with no record. -/
theorem validate_amounts_boundary :
    ∀ (oid : String) (total : Option PyVal) (settled : Option ℚ),
      (∀ (t : PyVal) (tq s : ℚ), total = some t → pyFloat? t = some tq → settled = some s →
        ((1 / 100 < |s - tq| →
          validate_amounts oid total settled =
            ("ACTION_REQUIRED", some "SETTLEMENT_AMOUNT_MISMATCH",
              some ⟨oid, tq, s, s - tq⟩))
          ∧ (|s - tq| ≤ 1 / 100 →
            validate_amounts oid total settled = ("SUCCESS", none, none))))
      ∧ ((total = none ∨ settled = none) →
          validate_amounts oid total settled = ("SUCCESS", none, none))
      ∧ (∀ t : PyVal, total = some t → pyFloat? t = none →
          validate_amounts oid total settled = ("SUCCESS", none, none)) := by
  intro oid total settled
  refine ⟨?_, ?_, ?_⟩
  · intro t tq s ht hq hs
    subst ht; subst hs
    constructor
    · intro hlt
      simp only [validate_amounts, hq]
      rw [if_pos hlt]
    · intro hle
      simp only [validate_amounts, hq]
      rw [if_neg (not_lt.mpr hle)]
  · rintro (h | h)
    · subst h; rfl
    · subst h; cases total <;> rfl
  · intro t ht hqn
    subst ht
    cases settled with
    | none => rfl
    | some s => simp only [validate_amounts, hqn]

/-- The action_reason produced by `_validate_amounts` is `none` or the
mismatch tag. -/
theorem va_reason (oid : String) (tot : Option PyVal) (samt : Option ℚ) :
    (validate_amounts oid tot samt).2.1 = none
    ∨ (validate_amounts oid tot samt).2.1 = some "SETTLEMENT_AMOUNT_MISMATCH" := by
  rcases tot with _ | t
  · cases samt <;> exact Or.inl rfl
  · cases samt with
    | none => exact Or.inl rfl
    | some s =>
      rcases hq : pyFloat? t with _ | tq <;> simp only [validate_amounts, hq]
      · simp
      · split_ifs <;> simp

/-- Priority 1 of the chain: DB state ERROR short-circuits everything. -/
theorem classifyCore_error {oid : String} {cst dbst : Option String} {cs : String}
    {idi ist : Bool} {samt : Option ℚ} {hanom hasn : Bool} {tot : Option PyVal}
    (h : dbst = some "ERROR") :
    classifyCore oid cst dbst cs idi ist samt hanom hasn tot
      = ⟨"ACTION_REQUIRED", some "CXP_ERROR_STATE", none, false⟩ := by
  unfold classifyCore
  rw [if_pos h]

/-- Priority 4 of the chain: ASN present and not settled, once priorities 1-3
fail. -/
theorem classifyCore_asn {oid : String} {cst dbst : Option String} {cs : String}
    {idi ist : Bool} {samt : Option ℚ} {hanom hasn : Bool} {tot : Option PyVal}
    (h1 : ¬dbst = some "ERROR")
    (h2 : ¬(dbst = some "SUCCESS" ∧ cs = "NA" ∧ ¬ist
        ∧ (cst = some "ORDERED" ∨ cst = some "CLAIMED")))
    (h3 : ¬dbst = some "PAYMENT_CANCELLED") (ha : hasn = true) (hs : ist = false) :
    classifyCore oid cst dbst cs idi ist samt hanom hasn tot
      = ⟨"ACTION_REQUIRED", some "ASN_NOT_SETTLED", none, false⟩ := by
  unfold classifyCore
  rw [if_neg h1, if_neg h2, if_neg h3, if_pos ⟨ha, by simp [hs]⟩]

/-- Inversion: the SHIPPED_NOT_SETTLED reason arises only at priority 5, which
requires a SHIPPED unsettled order with no ASN. -/
theorem classifyCore_sns_inv {oid : String} {cst dbst : Option String} {cs : String}
    {idi ist : Bool} {samt : Option ℚ} {hanom hasn : Bool} {tot : Option PyVal} :
    (classifyCore oid cst dbst cs idi ist samt hanom hasn tot).action_reason
        = some "SHIPPED_NOT_SETTLED" →
    cst = some "SHIPPED" ∧ ist = false ∧ hasn = false := by
  intro h
  unfold classifyCore at h
  by_cases hc1 : dbst = some "ERROR"
  · rw [if_pos hc1] at h
    exact absurd h (by simp)
  rw [if_neg hc1] at h
  by_cases hc2 : dbst = some "SUCCESS" ∧ cs = "NA" ∧ ¬ist
      ∧ (cst = some "ORDERED" ∨ cst = some "CLAIMED")
  · rw [if_pos hc2] at h
    exact absurd h (by simp)
  rw [if_neg hc2] at h
  by_cases hc3 : dbst = some "PAYMENT_CANCELLED"
  · rw [if_pos hc3] at h
    exact absurd h (by simp)
  rw [if_neg hc3] at h
  by_cases hc4 : hasn ∧ ¬ist
  · rw [if_pos hc4] at h
    exact absurd h (by simp)
  rw [if_neg hc4] at h
  by_cases hc5 : cst = some "SHIPPED" ∧ ¬ist
  · rw [if_pos hc5] at h
    refine ⟨hc5.1, Bool.eq_false_iff.mpr hc5.2, ?_⟩
    rcases Bool.eq_false_or_eq_true hasn with ht | hf
    · exact absurd ⟨ht, hc5.2⟩ hc4
    · exact hf
  rw [if_neg hc5] at h
  by_cases hc6 : cst = some "REJECTED" ∧ cs = "APPROVAL"
  · rw [if_pos hc6] at h
    exact absurd h (by simp)
  rw [if_neg hc6] at h
  by_cases hc7 : ¬truthy cst ∧ cs = "APPROVAL"
  · rw [if_pos hc7] at h
    exact absurd h (by simp)
  rw [if_neg hc7] at h
  by_cases hc8 : hanom = true
  · rw [if_pos hc8] at h
    exact absurd h (by simp)
  rw [if_neg hc8] at h
  by_cases hc9 : (cst = some "SHIPPED" ∨ hasn) ∧ ist
  · rw [if_pos hc9] at h
    have h' : (validate_amounts oid tot samt).2.1 = some "SHIPPED_NOT_SETTLED" := h
    rcases va_reason oid tot samt with hv | hv <;> rw [hv] at h' <;> exact absurd h' (by simp)
  rw [if_neg hc9] at h
  by_cases hc10 : (cst = some "ORDERED" ∨ cst = some "CLAIMED") ∧ cs = "APPROVAL"
  · rw [if_pos hc10] at h
    by_cases hidi : idi = true
    · rw [if_pos hidi] at h
      exact absurd h (by simp)
    · rw [if_neg hidi] at h
      have h' : (validate_amounts oid tot samt).2.1 = some "SHIPPED_NOT_SETTLED" := h
      rcases va_reason oid tot samt with hv | hv <;> rw [hv] at h' <;> exact absurd h' (by simp)
  rw [if_neg hc10] at h
  by_cases hc11 : strContainsSub cs "DECLINED" = true ∨ cs = "SUSPECTED FRAUD"
  · rw [if_pos hc11] at h
    exact absurd h (by simp)
  · rw [if_neg hc11] at h
    exact absurd h (by simp)

/-- Records produced by `classifyOrder` echo the derived context, so the
priority-1 outcome can be read off the record itself (helper for C4). -/
theorem classifyOrder_error_P (ci : List (String × CurrentInvoice))
    (si : List (String × SettledInvoice)) (tm : List (String × PyVal))
    (asn : List String) (o : CxpOrder) :
    (classifyOrder ci si tm asn o).record.cxp_db_status = some "ERROR" →
    (classifyOrder ci si tm asn o).record.state = "ACTION_REQUIRED"
    ∧ (classifyOrder ci si tm asn o).record.action_reason = some "CXP_ERROR_STATE" := by
  intro h
  have ho : o.order_state = some "ERROR" := h
  constructor <;>
    · simp only [classifyOrder]
      rw [classifyCore_error ho]
      simp

/-- The invariant-transport lemma: a property holding of every record
`classifyOrder` produces and preserved by the retry update holds of every
entry of the final orders map. -/
theorem classify_orders_allVals (P : OrderRecord → Prop)
    (h1 : ∀ ci si tm asn o, P (classifyOrder ci si tm asn o).record)
    (h2 : ∀ prev r, P r → P (retryMark prev r)) :
    ∀ inp, AllVals P (classify_orders inp).orders := by
  intro inp
  have hfold : AllVals P ((inp.cxp_orders.foldl
      (fun (p : Acc × ClassifyInputs) o => (classifyStep p.2 p.1 o, p.2))
      (initAcc, inp)).1.orders_result) :=
    foldl_inv (fun p : Acc × ClassifyInputs => AllVals P p.1.orders_result)
      (fun p o => (classifyStep p.2 p.1 o, p.2)) inp.cxp_orders (initAcc, inp)
      (fun b x hb => allVals_insert hb (h1 _ _ _ _ _))
      (fun p hp => absurd hp (List.not_mem_nil p))
  have hsnd : ∀ (hist : List (String × List Attempt)) (ord0 : List (String × OrderRecord)),
      AllVals P ord0 → AllVals P (secondPass hist ord0).1 := by
    intro hist ord0 h0
    refine foldl_inv (fun st : List (String × OrderRecord) × List String => AllVals P st.1)
      _ hist (ord0, []) ?_ h0
    intro b x hb
    by_cases hlen : x.2.length < 2
    · rw [if_pos hlen]
      exact hb
    · rw [if_neg hlen]
      exact foldl_inv (fun st : List (String × OrderRecord) × List String => AllVals P st.1)
        applyPair (retryPairs (sortByDate x.2)) b
        (fun b' p hb' => allVals_update hb' (fun r hr => h2 p.2 r hr)) hb
  exact hsnd _ _ hfold

/-- Per-record form of the ASN_NOT_SETTLED rule (helper for C5, part a). -/
theorem classifyOrder_asn_P (ci : List (String × CurrentInvoice))
    (si : List (String × SettledInvoice)) (tm : List (String × PyVal))
    (asn : List String) (o : CxpOrder) :
    (classifyOrder ci si tm asn o).record.has_asn = true →
    (classifyOrder ci si tm asn o).record.is_settled = false →
    ¬(classifyOrder ci si tm asn o).record.cxp_db_status = some "ERROR" →
    ¬((classifyOrder ci si tm asn o).record.cxp_db_status = some "SUCCESS"
      ∧ (classifyOrder ci si tm asn o).record.converge_status = "NA"
      ∧ ((classifyOrder ci si tm asn o).record.cxp_status = some "ORDERED"
         ∨ (classifyOrder ci si tm asn o).record.cxp_status = some "CLAIMED")) →
    ¬(classifyOrder ci si tm asn o).record.cxp_db_status = some "PAYMENT_CANCELLED" →
    (classifyOrder ci si tm asn o).record.state = "ACTION_REQUIRED"
    ∧ (classifyOrder ci si tm asn o).record.action_reason = some "ASN_NOT_SETTLED" := by
  intro ha hs h1 h2 h3
  have ha' : asn.contains o.process_number = true := ha
  have hs' : ((lookupAssoc si o.process_number).map (fun i => i.settled)).getD false
      = false := hs
  have h1' : ¬o.order_state = some "ERROR" := h1
  have h3' : ¬o.order_state = some "PAYMENT_CANCELLED" := h3
  have h2' : ¬(o.order_state = some "SUCCESS"
      ∧ ((lookupAssoc ci o.process_number).map (fun i => i.final_status)).getD "NA" = "NA"
      ∧ ¬(((lookupAssoc si o.process_number).map (fun i => i.settled)).getD false = true)
      ∧ (o.fulfillment_status = some "ORDERED" ∨ o.fulfillment_status = some "CLAIMED")) :=
    fun hc => h2 ⟨hc.1, hc.2.1, hc.2.2.2⟩
  constructor <;>
    · simp only [classifyOrder]
      rw [classifyCore_asn h1' h2' h3' ha' hs']
      simp [hs']

/-- Per-record inversion of the SHIPPED_NOT_SETTLED reason (helper for C5,
part b). -/
theorem classifyOrder_sns_P (ci : List (String × CurrentInvoice))
    (si : List (String × SettledInvoice)) (tm : List (String × PyVal))
    (asn : List String) (o : CxpOrder) :
    (classifyOrder ci si tm asn o).record.action_reason = some "SHIPPED_NOT_SETTLED" →
    (classifyOrder ci si tm asn o).record.cxp_status = some "SHIPPED"
    ∧ (classifyOrder ci si tm asn o).record.is_settled = false
    ∧ (classifyOrder ci si tm asn o).record.has_asn = false := by
  intro h
  simp only [classifyOrder] at h ⊢
  split at h
  · simp at h
  · exact classifyCore_sns_inv h

/-- C4: every order whose DB order_state is ERROR classifies as
ACTION_REQUIRED / CXP_ERROR_STATE regardless of every other field; the
SETTLED_NO_ASN post-check never changes this (it only rewrites SUCCESS). -/
theorem cxp_error_state_always_wins :
    ∀ (inp : ClassifyInputs) (oid : String) (r : OrderRecord),
      lookupAssoc (classify_orders inp).orders oid = some r →
      r.cxp_db_status = some "ERROR" →
      r.state = "ACTION_REQUIRED" ∧ r.action_reason = some "CXP_ERROR_STATE" := by
  intro inp oid r hl
  exact allVals_lookup
    (classify_orders_allVals
      (fun r => r.cxp_db_status = some "ERROR" →
        r.state = "ACTION_REQUIRED" ∧ r.action_reason = some "CXP_ERROR_STATE")
      classifyOrder_error_P (fun prev r h => h) inp) hl

/-- C4 witness: a concrete ERROR-state order (SHIPPED, with ASN, with an
APPROVAL authorization) classifies as ACTION_REQUIRED / CXP_ERROR_STATE. -/
theorem cxp_error_state_always_wins_witness :
    (getRec (classify_orders C4inp) "E1").state = "ACTION_REQUIRED"
    ∧ (getRec (classify_orders C4inp) "E1").action_reason = some "CXP_ERROR_STATE" := by
  have hlk : lookupAssoc (classify_orders C4inp).orders "E1"
      = some (getRec (classify_orders C4inp) "E1") := by
    have hw : (lookupAssoc (classify_orders C4inp).orders "E1").isSome = true := rfl
    cases h : lookupAssoc (classify_orders C4inp).orders "E1" with
    | some r => simp only [getRec, h]
    | none =>
      rw [h] at hw
      simp at hw
  exact cxp_error_state_always_wins C4inp "E1" _ hlk (by decide)

/-- C5: an order in the ASN set that is not settled and escapes priorities 1-3
gets ASN_NOT_SETTLED (even when SHIPPED); conversely SHIPPED_NOT_SETTLED is
only ever assigned to SHIPPED, unsettled orders absent from the ASN set. -/
theorem asn_preempts_shipped_not_settled :
    ∀ (inp : ClassifyInputs) (oid : String) (r : OrderRecord),
      lookupAssoc (classify_orders inp).orders oid = some r →
      (r.has_asn = true → r.is_settled = false →
        ¬r.cxp_db_status = some "ERROR" →
        ¬(r.cxp_db_status = some "SUCCESS" ∧ r.converge_status = "NA"
          ∧ (r.cxp_status = some "ORDERED" ∨ r.cxp_status = some "CLAIMED")) →
        ¬r.cxp_db_status = some "PAYMENT_CANCELLED" →
        r.state = "ACTION_REQUIRED" ∧ r.action_reason = some "ASN_NOT_SETTLED")
      ∧ (r.action_reason = some "SHIPPED_NOT_SETTLED" →
          r.cxp_status = some "SHIPPED" ∧ r.is_settled = false ∧ r.has_asn = false) := by
  intro inp oid r hl
  constructor
  · exact allVals_lookup
      (classify_orders_allVals
        (fun r => r.has_asn = true → r.is_settled = false →
          ¬r.cxp_db_status = some "ERROR" →
          ¬(r.cxp_db_status = some "SUCCESS" ∧ r.converge_status = "NA"
            ∧ (r.cxp_status = some "ORDERED" ∨ r.cxp_status = some "CLAIMED")) →
          ¬r.cxp_db_status = some "PAYMENT_CANCELLED" →
          r.state = "ACTION_REQUIRED" ∧ r.action_reason = some "ASN_NOT_SETTLED")
        classifyOrder_asn_P (fun prev r h => h) inp) hl
  · exact allVals_lookup
      (classify_orders_allVals
        (fun r => r.action_reason = some "SHIPPED_NOT_SETTLED" →
          r.cxp_status = some "SHIPPED" ∧ r.is_settled = false ∧ r.has_asn = false)
        classifyOrder_sns_P (fun prev r h => h) inp) hl

/-- C5 witness: a SHIPPED, unsettled order present in the ASN set classifies
as ACTION_REQUIRED / ASN_NOT_SETTLED, not SHIPPED_NOT_SETTLED. -/
theorem asn_preempts_shipped_not_settled_witness :
    (getRec (classify_orders C5inp) "A1").state = "ACTION_REQUIRED"
    ∧ (getRec (classify_orders C5inp) "A1").action_reason = some "ASN_NOT_SETTLED" := by
  have hlk : lookupAssoc (classify_orders C5inp).orders "A1"
      = some (getRec (classify_orders C5inp) "A1") := by
    have hw : (lookupAssoc (classify_orders C5inp).orders "A1").isSome = true := rfl
    cases h : lookupAssoc (classify_orders C5inp).orders "A1" with
    | some r => simp only [getRec, h]
    | none =>
      rw [h] at hw
      simp at hw
  exact (asn_preempts_shipped_not_settled C5inp "A1" _ hlk).1
    (by decide) (by decide) (by decide) (by decide) (by decide)

/-- C8: the resolvers return normally exactly when the batch is non-empty and
its first row carries all required columns; otherwise they fail with a
`ValidationError` identifying the batch and the missing columns (empty-batch
errors name the batch; unparsable amounts never raise, they are parsed by the
total function `safe_float`). -/
theorem resolver_validation_iff :
    ∀ rows : List Row,
      (exceptIsOk (resolve_converge_current rows) = true ↔
        ∃ first rest, rows = first :: rest
          ∧ REQUIRED_CURRENT_COLUMNS.filter (fun c => !(rowHasKey first c)) = [])
      ∧ (∀ e, resolve_converge_current rows = .error e →
          (rows = [] ∧ e = .emptyBatch "Converge CURRENT")
          ∨ ∃ first rest, rows = first :: rest
              ∧ REQUIRED_CURRENT_COLUMNS.filter (fun c => !(rowHasKey first c)) ≠ []
              ∧ e = .missingColumns "Converge CURRENT"
                  (REQUIRED_CURRENT_COLUMNS.filter (fun c => !(rowHasKey first c)))
                  (first.map Prod.fst))
      ∧ (exceptIsOk (resolve_converge_settled rows) = true ↔
        ∃ first rest, rows = first :: rest
          ∧ REQUIRED_SETTLED_COLUMNS.filter (fun c => !(rowHasKey first c)) = [])
      ∧ (∀ e, resolve_converge_settled rows = .error e →
          (rows = [] ∧ e = .emptyBatch "Converge SETTLED")
          ∨ ∃ first rest, rows = first :: rest
              ∧ REQUIRED_SETTLED_COLUMNS.filter (fun c => !(rowHasKey first c)) ≠ []
              ∧ e = .missingColumns "Converge SETTLED"
                  (REQUIRED_SETTLED_COLUMNS.filter (fun c => !(rowHasKey first c)))
                  (first.map Prod.fst)) := by
  intro rows
  refine ⟨?_, ?_, ?_, ?_⟩
  · cases rows with
    | nil =>
      constructor
      · intro h
        simp [resolve_converge_current, resolve_converge_currentST,
          validate_csv_columns, exceptIsOk] at h
      · rintro ⟨first, rest, h, -⟩
        cases h
    | cons first rest =>
      by_cases hm : (REQUIRED_CURRENT_COLUMNS.filter (fun c => !(rowHasKey first c))).isEmpty
      · constructor
        · intro _
          exact ⟨first, rest, rfl, List.isEmpty_iff.mp hm⟩
        · intro _
          simp [resolve_converge_current, resolve_converge_currentST,
            validate_csv_columns, hm, exceptIsOk]
      · constructor
        · intro h
          simp [resolve_converge_current, resolve_converge_currentST,
            validate_csv_columns, hm, exceptIsOk] at h
        · rintro ⟨first', rest', heq, hfil⟩
          cases heq
          exact absurd (List.isEmpty_iff.mpr hfil) hm
  · intro e he
    cases rows with
    | nil =>
      left
      refine ⟨rfl, ?_⟩
      simp [resolve_converge_current, resolve_converge_currentST,
        validate_csv_columns] at he
      exact he.symm
    | cons first rest =>
      by_cases hm : (REQUIRED_CURRENT_COLUMNS.filter (fun c => !(rowHasKey first c))).isEmpty
      · simp [resolve_converge_current, resolve_converge_currentST,
          validate_csv_columns, hm] at he
      · right
        refine ⟨first, rest, rfl, fun hc => hm (List.isEmpty_iff.mpr hc), ?_⟩
        simp [resolve_converge_current, resolve_converge_currentST,
          validate_csv_columns, hm] at he
        exact he.symm
  · cases rows with
    | nil =>
      constructor
      · intro h
        simp [resolve_converge_settled, resolve_converge_settledST,
          validate_csv_columns, exceptIsOk] at h
      · rintro ⟨first, rest, h, -⟩
        cases h
    | cons first rest =>
      by_cases hm : (REQUIRED_SETTLED_COLUMNS.filter (fun c => !(rowHasKey first c))).isEmpty
      · constructor
        · intro _
          exact ⟨first, rest, rfl, List.isEmpty_iff.mp hm⟩
        · intro _
          simp [resolve_converge_settled, resolve_converge_settledST,
            validate_csv_columns, hm, exceptIsOk]
      · constructor
        · intro h
          simp [resolve_converge_settled, resolve_converge_settledST,
            validate_csv_columns, hm, exceptIsOk] at h
        · rintro ⟨first', rest', heq, hfil⟩
          cases heq
          exact absurd (List.isEmpty_iff.mpr hfil) hm
  · intro e he
    cases rows with
    | nil =>
      left
      refine ⟨rfl, ?_⟩
      simp [resolve_converge_settled, resolve_converge_settledST,
        validate_csv_columns] at he
      exact he.symm
    | cons first rest =>
      by_cases hm : (REQUIRED_SETTLED_COLUMNS.filter (fun c => !(rowHasKey first c))).isEmpty
      · simp [resolve_converge_settled, resolve_converge_settledST,
          validate_csv_columns, hm] at he
      · right
        refine ⟨first, rest, rfl, fun hc => hm (List.isEmpty_iff.mpr hc), ?_⟩
        simp [resolve_converge_settled, resolve_converge_settledST,
          validate_csv_columns, hm] at he
        exact he.symm

/-- C8 witness: a one-row CURRENT batch with both required columns resolves
normally, and the empty SETTLED batch fails with the empty-batch error. -/
theorem resolver_validation_witness :
    exceptIsOk (resolve_converge_current C8okRows) = true :=
  (resolver_validation_iff C8okRows).1.mpr
    ⟨[("Invoice Number", some "I1"), ("Auth Message", some "APPROVAL")], [], rfl, rfl⟩

/-- Invariants of one resolved SETTLED invoice (helper for C3). -/
theorem resolveSettledInvoice_props (rows : List NormRow) :
    ((resolveSettledInvoice rows).settled = true ↔ 0 < (resolveSettledInvoice rows).sale_count)
    ∧ (resolveSettledInvoice rows).net_amount
        = (resolveSettledInvoice rows).sale_amount - (resolveSettledInvoice rows).return_amount
    ∧ ((resolveSettledInvoice rows).sale_count = 0 →
        0 < (resolveSettledInvoice rows).return_count →
        (resolveSettledInvoice rows).settled = false
        ∧ (resolveSettledInvoice rows).has_anomaly = true
        ∧ "RETURN_WITHOUT_SALE" ∈ (resolveSettledInvoice rows).anomaly_reasons) := by
  refine ⟨?_, rfl, ?_⟩
  · simp [resolveSettledInvoice]
  · intro h0 h1
    simp only [resolveSettledInvoice] at h0 h1 ⊢
    refine ⟨by simp [h0], ?_, ?_⟩
    · simp [h0, h1]
    · simp [h0, h1]

/-- C3: every invoice of a resolved SETTLED batch is settled iff it has at
least one SALE row, its net amount is exactly sale minus return amount, and a
RETURN-without-SALE invoice is unsettled, anomalous, and tagged
RETURN_WITHOUT_SALE. -/
theorem settled_invoice_invariants :
    ∀ (rows : List Row) (out : SettledResult) (inv : String) (r : SettledInvoice),
      resolve_converge_settled rows = .ok out →
      lookupAssoc out.invoice_level inv = some r →
      (r.settled = true ↔ 0 < r.sale_count)
      ∧ r.net_amount = r.sale_amount - r.return_amount
      ∧ (r.sale_count = 0 → 0 < r.return_count →
          r.settled = false ∧ r.has_anomaly = true
          ∧ "RETURN_WITHOUT_SALE" ∈ r.anomaly_reasons) := by
  intro rows out inv r hok hl
  have hshape : ∃ nr, r = resolveSettledInvoice nr := by
    unfold resolve_converge_settled resolve_converge_settledST at hok
    cases hval : validate_csv_columns rows REQUIRED_SETTLED_COLUMNS "Converge SETTLED" with
    | error e =>
      rw [hval] at hok
      cases hok
    | ok u =>
      rw [hval] at hok
      simp only [Except.ok.injEq] at hok
      rw [← hok] at hl
      rw [lookupAssoc_map resolveSettledInvoice] at hl
      rcases Option.map_eq_some'.mp hl with ⟨nr, hnr, hr⟩
      exact ⟨nr, hr.symm⟩
  rcases hshape with ⟨nr, rfl⟩
  exact resolveSettledInvoice_props nr

/-- C3 witness: on a batch with one SALE and one RETURN row for invoice "I1",
the resolved invoice satisfies the claimed invariants. -/
theorem settled_invoice_invariants_witness :
    (C3rec.settled = true ↔ 0 < C3rec.sale_count)
    ∧ C3rec.net_amount = C3rec.sale_amount - C3rec.return_amount
    ∧ (C3rec.sale_count = 0 → 0 < C3rec.return_count →
        C3rec.settled = false ∧ C3rec.has_anomaly = true
        ∧ "RETURN_WITHOUT_SALE" ∈ C3rec.anomaly_reasons) := by
  have hok : resolve_converge_settled C3rows = Except.ok C3out := by
    have hw : exceptIsOk (resolve_converge_settled C3rows) = true := rfl
    cases h : resolve_converge_settled C3rows with
    | ok o => simp only [C3out, h]
    | error e =>
      rw [h] at hw
      simp [exceptIsOk] at hw
  have hlk : lookupAssoc C3out.invoice_level "I1" = some C3rec := by
    have hw : (lookupAssoc C3out.invoice_level "I1").isSome = true := rfl
    cases h : lookupAssoc C3out.invoice_level "I1" with
    | some r => simp only [C3rec, h]
    | none =>
      rw [h] at hw
      simp at hw
  exact settled_invoice_invariants C3rows C3out "I1" C3rec hok hlk

/-- C1 (code bug demonstration): an order with fulfillment REJECTED and
authorization APPROVAL receives the out-of-vocabulary state "ORDER REJECTED"
and its id lands in none of successful_orders, failed_orders,
action_required_orders — nor in rejected_orders, whose guard tests the
misspelled literal "REJECTES". -/
theorem rejected_order_escapes_partition :
    (lookupAssoc (classify_orders C1inp).orders "P1").map (fun r => r.state)
      = some "ORDER REJECTED"
    ∧ "P1" ∉ (classify_orders C1inp).successful_orders
    ∧ "P1" ∉ (classify_orders C1inp).failed_orders
    ∧ "P1" ∉ (classify_orders C1inp).action_required_orders
    ∧ (classify_orders C1inp).rejected_orders = [] := by
  exact ⟨by decide, by decide, by decide, by decide, by decide⟩

/-- Keys after a dict store: unchanged when present, appended when new. -/
theorem insertAssoc_keys (k : String) (v : α) (l : List (String × α)) :
    (insertAssoc k v l).map Prod.fst
      = if k ∈ l.map Prod.fst then l.map Prod.fst else l.map Prod.fst ++ [k] := by
  induction l with
  | nil => simp [insertAssoc]
  | cons p rest ih =>
    by_cases h : p.1 = k
    · simp [insertAssoc, h]
    · by_cases h2 : k ∈ rest.map Prod.fst <;>
        simp [insertAssoc, h, h2, ih, Ne.symm h]

/-- The in-place update keeps the key list unchanged. -/
theorem updateAssoc_keys (k : String) (f : α → α) (l : List (String × α)) :
    (updateAssoc k f l).map Prod.fst = l.map Prod.fst := by
  induction l with
  | nil => rfl
  | cons p rest ih =>
    by_cases h : p.1 = k <;> simp [updateAssoc, h, ih]

/-- With pairwise-distinct ids, the first pass appends one orders-map key per
order, in input order. -/
theorem firstPass_keys : ∀ (l : List CxpOrder) (inp : ClassifyInputs) (acc : Acc),
    (∀ o ∈ l, o.process_number ∉ acc.orders_result.map Prod.fst) →
    (l.map (fun o => o.process_number)).Nodup →
    ((l.foldl (fun (p : Acc × ClassifyInputs) o => (classifyStep p.2 p.1 o, p.2))
      (acc, inp)).1.orders_result).map Prod.fst
      = acc.orders_result.map Prod.fst ++ l.map (fun o => o.process_number) := by
  intro l
  induction l with
  | nil =>
    intro inp acc _ _
    simp
  | cons o t ih =>
    intro inp acc hnot hnd
    have hkeys : ((classifyStep inp acc o).orders_result).map Prod.fst
        = acc.orders_result.map Prod.fst ++ [o.process_number] := by
      have he : (classifyStep inp acc o).orders_result
          = insertAssoc o.process_number
              (classifyOrder inp.converge_current.invoices inp.converge_settled.invoice_level
                (orderTotalsMap inp.order_totals) (inp.asn_process_numbers.getD []) o).record
              acc.orders_result := rfl
      rw [he, insertAssoc_keys, if_neg (hnot o (List.mem_cons_self o t))]
    have hnd' := (List.nodup_cons.mp hnd).2
    have hhd := (List.nodup_cons.mp hnd).1
    simp only [List.foldl_cons, List.map_cons]
    rw [ih inp (classifyStep inp acc o) ?hn hnd']
    · rw [hkeys]
      simp
    case hn =>
      intro o' ho' hmem
      rw [hkeys] at hmem
      rcases List.mem_append.mp hmem with hin | hin
      · exact hnot o' (List.mem_cons_of_mem _ ho') hin
      · rw [List.mem_singleton] at hin
        apply hhd
        show o.process_number ∈ List.map (fun o => o.process_number) t
        rw [← hin]
        exact List.mem_map_of_mem (fun o => o.process_number) ho'

/-- The retry pass never changes the orders-map key list. -/
theorem secondPass_keys (hist : List (String × List Attempt))
    (ord0 : List (String × OrderRecord)) :
    ((secondPass hist ord0).1).map Prod.fst = ord0.map Prod.fst := by
  refine foldl_inv
    (fun st : List (String × OrderRecord) × List String =>
      st.1.map Prod.fst = ord0.map Prod.fst)
    _ hist (ord0, []) ?_ rfl
  intro b x hb
  by_cases hlen : x.2.length < 2
  · rw [if_pos hlen]
    exact hb
  · rw [if_neg hlen]
    refine foldl_inv
      (fun st : List (String × OrderRecord) × List String =>
        st.1.map Prod.fst = ord0.map Prod.fst)
      applyPair _ b ?_ hb
    intro b' p hb'
    show (updateAssoc p.1 (retryMark p.2) b'.1).map Prod.fst = _
    rw [updateAssoc_keys]
    exact hb'

/-- C10: with a duplicated process_number the orders map keeps one entry (the
last occurrence's record) while successful_orders and action_required_orders
record every occurrence (so those lists can exceed the map size), and
failed_orders (a set) deduplicates; with pairwise-distinct process_numbers
the orders map has exactly one entry per input order. -/
theorem duplicate_process_numbers :
    ((classify_orders C10dupInp).orders.map Prod.fst = ["D1"]
      ∧ (lookupAssoc (classify_orders C10dupInp).orders "D1").map (fun r => r.cxp_status)
          = some (some "CLAIMED")
      ∧ (classify_orders C10dupInp).successful_orders = ["D1", "D1"]
      ∧ (classify_orders C10dupARInp).action_required_orders = ["R1", "R1"]
      ∧ (classify_orders C10dupARInp).orders.map Prod.fst = ["R1"]
      ∧ (classify_orders C10dupFailInp).failed_orders = ["F1"]
      ∧ (classify_orders C10dupFailInp).orders.map Prod.fst = ["F1"])
    ∧ (∀ inp : ClassifyInputs,
        (inp.cxp_orders.map (fun o => o.process_number)).Nodup →
        (classify_orders inp).orders.length = inp.cxp_orders.length) := by
  constructor
  · exact ⟨by decide, by decide, by decide, by decide, by decide, by decide, by decide⟩
  · intro inp hnd
    have h1 := firstPass_keys inp.cxp_orders inp initAcc
      (fun o _ hmem => absurd hmem (by simp [initAcc])) hnd
    have hh : ((classify_orders inp).orders).map Prod.fst
        = inp.cxp_orders.map (fun o => o.process_number) := by
      show ((secondPass
          ((inp.cxp_orders.foldl
            (fun (p : Acc × ClassifyInputs) o => (classifyStep p.2 p.1 o, p.2))
            (initAcc, inp)).1.customer_history)
          ((inp.cxp_orders.foldl
            (fun (p : Acc × ClassifyInputs) o => (classifyStep p.2 p.1 o, p.2))
            (initAcc, inp)).1.orders_result)).1).map Prod.fst = _
      rw [secondPass_keys, h1]
      simp [initAcc]
    have hlen := congrArg List.length hh
    simpa using hlen

/-- C10 witness: on two orders with distinct process_numbers, the orders map
has exactly one entry per input order. -/
theorem duplicate_process_numbers_witness :
    (classify_orders C10winp).orders.length = C10winp.cxp_orders.length :=
  duplicate_process_numbers.2 C10winp (by decide)

/-- C7: the retry scan used by classify_orders links a pair (success id,
previous failed id) exactly for the adjacent pairs of the sorted attempt list
satisfying the FAILED-or-ACTION_REQUIRED → SUCCESS, 0-7-day condition; and an
order with neither a truthy email nor a truthy phone produces no customer key,
so it is excluded from retry analysis. -/
theorem retry_detection_characterization :
    (∀ (l : List Attempt) (sid pid : String),
      (sid, pid) ∈ retryPairs l ↔
        ∃ a b, (a, b) ∈ l.zip l.tail ∧ retryCond a b
          ∧ sid = b.order_id ∧ pid = a.order_id)
    ∧ (∀ email phone : Option String, truthy email = false → truthy phone = false →
        truthy (pyOrStr email phone) = false) := by
  constructor
  · intro l
    induction l with
    | nil => intro sid pid; simp [retryPairs]
    | cons a t ih =>
      cases t with
      | nil => intro sid pid; simp [retryPairs]
      | cons b rest =>
        intro sid pid
        simp only [retryPairs, List.zip_cons_cons, List.tail_cons]
        constructor
        · intro hm
          rcases List.mem_append.mp hm with h1 | h2
          · by_cases hc : retryCond a b
            · rw [if_pos hc] at h1
              simp only [List.mem_singleton, Prod.mk.injEq] at h1
              exact ⟨a, b, List.mem_cons_self _ _, hc, h1.1, h1.2⟩
            · rw [if_neg hc] at h1
              simp at h1
          · obtain ⟨a', b', hm', hc', hs', hp'⟩ := (ih sid pid).mp h2
            rw [List.tail_cons] at hm'
            exact ⟨a', b', List.mem_cons_of_mem _ hm', hc', hs', hp'⟩
        · rintro ⟨a', b', hm', hc', rfl, rfl⟩
          rcases List.mem_cons.mp hm' with heq | hmem
          · obtain ⟨rfl, rfl⟩ := Prod.mk.injEq .. |>.mp heq
            refine List.mem_append.mpr (Or.inl ?_)
            rw [if_pos hc']
            exact List.mem_singleton.mpr rfl
          · refine List.mem_append.mpr (Or.inr ?_)
            refine (ih _ _).mpr ⟨a', b', ?_, hc', rfl, rfl⟩
            rw [List.tail_cons]
            exact hmem
  · intro email phone h1 h2
    simp [pyOrStr, h1, h2]

/-- C7 witness: a FAILED attempt on day 1 followed by a SUCCESS on day 5 is
linked; the same pair with the success on day 9 is outside the window. -/
theorem retry_detection_witness :
    ("B", "A") ∈ retryPairs [⟨"A", "FAILED", 1⟩, ⟨"B", "SUCCESS", 5⟩]
    ∧ ¬("B", "A") ∈ retryPairs [⟨"A", "FAILED", 1⟩, ⟨"B", "SUCCESS", 9⟩] := by
  constructor
  · exact (retry_detection_characterization.1 _ "B" "A").mpr
      ⟨⟨"A", "FAILED", 1⟩, ⟨"B", "SUCCESS", 5⟩, by decide, by decide, rfl, rfl⟩
  · decide

/-- C6 witness: order total 100.00 against settled 100.02 is flagged with
difference 0.02; settled 100.01 (difference exactly 0.01) is not flagged. -/
theorem validate_amounts_boundary_witness :
    validate_amounts "O1" (some (.num 100)) (some (10002 / 100)) =
      ("ACTION_REQUIRED", some "SETTLEMENT_AMOUNT_MISMATCH",
        some ⟨"O1", 100, 10002 / 100, 10002 / 100 - 100⟩)
    ∧ validate_amounts "O1" (some (.num 100)) (some (10001 / 100)) = ("SUCCESS", none, none) := by
  constructor
  · exact ((validate_amounts_boundary "O1" (some (.num 100)) (some (10002 / 100))).1
      (.num 100) 100 (10002 / 100) rfl rfl rfl).1
      (by rw [show (10002 : ℚ) / 100 - 100 = 1 / 50 by norm_num, abs_of_pos (by norm_num)]
          norm_num)
  · exact ((validate_amounts_boundary "O1" (some (.num 100)) (some (10001 / 100))).1
      (.num 100) 100 (10001 / 100) rfl rfl rfl).2
      (by rw [show (10001 : ℚ) / 100 - 100 = 1 / 100 by norm_num, abs_of_pos (by norm_num)])

end Recon
